import Mathlib

/-!
# Verification of the category-intake chat bot (`src/bot.py`)

This file shallowly embeds the core of `bot.py` — the per-user
category-selection state machine, the append-only entry store, the admin
notification fan-out, and the `/view` report renderer — and proves the
frozen claims about it.

Modelling conventions:
* The Python dict `user_state` (`{user_id: selected_category}`) is an
  association list `List (Int × String)` with overwriting insert, matching
  Python dict assignment and membership.
* The SQLite `entries` table is an append-only `List Entry`; `add_entry`
  appends, `get_entries` scans in insertion (rowid) order.
* Each handler returns the messages it sends (to the user and to the
  admin) explicitly.  A storage failure in `add_entry` is modelled by a
  `storeOk : Bool` parameter; when the insert fails the Python coroutine
  raises, so the handler aborts with no further sends, recorded by the
  `raised` flag of the result.
* `view_entries` returns `Option (List String)`: `none` models an
  uncaught `KeyError` from the grouping dict `cats[category]`.
-/

namespace Bot

/-- The category tokens of the inline keyboard in `start` (lines 80–85),
which are also exactly the keys of the report dict `cats` (line 135). -/
def registryCategories : List String := ["fruits", "vegetables", "drinks", "others"]

/-- One row of the `entries` table: `(user_id, username, category, text)`.
The autoincrement `id` is represented by the row's position in the store. -/
structure Entry where
  user_id : Int
  username : String
  category : String
  text : String
deriving DecidableEq, Repr

/-- The mutable process state: the `user_state` dict and the `entries` table. -/
structure BotState where
  user_state : List (Int × String)
  entries : List Entry
deriving DecidableEq, Repr

/-- Python dict lookup `d[k]` / membership `k in d` (as an option). -/
def dictLookup : List (Int × String) → Int → Option String
  | [], _ => none
  | (k, v) :: rest, key => if k = key then some v else dictLookup rest key

/-- Python dict assignment `d[k] = v`: overwrites an existing binding. -/
def dictInsert : List (Int × String) → Int → String → List (Int × String)
  | [], key, val => [(key, val)]
  | (k, v) :: rest, key, val =>
    if k = key then (key, val) :: rest else (k, v) :: dictInsert rest key val

/-- Python `str.strip()` (line 104): remove leading and trailing whitespace
(the ASCII whitespace fragment, which covers the bot's message texts). -/
def pyStrip (s : String) : String :=
  String.mk (((s.data.dropWhile Char.isWhitespace).reverse.dropWhile
    Char.isWhitespace).reverse)

/-- Python `str.capitalize()`: first character upper-cased, rest lower-cased
(ASCII fragment, which covers every string the bot capitalizes). -/
def pyCapitalize (s : String) : String :=
  match s.data with
  | [] => ""
  | c :: cs => String.mk (c.toUpper :: cs.map Char.toLower)

/-- `choose_category` (lines 90–99): stores the callback token in
`user_state` with **no validation** and answers with a confirmation prompt.
Returns the new state and the messages sent to the user. -/
def choose_category (st : BotState) (uid : Int) (token : String) :
    BotState × List String :=
  ({ st with user_state := dictInsert st.user_state uid token },
   ["You chose *" ++ pyCapitalize token ++ "*.\nNow send me your entry."])

/-- Result of one `handle_message` invocation: the state afterwards, the
messages sent to the submitter, the messages sent to the admin, and whether
the coroutine ended by raising (an uncaught storage failure). -/
structure HandleResult where
  state : BotState
  userMsgs : List String
  adminMsgs : List String
  raised : Bool
deriving DecidableEq, Repr

/-- `handle_message` (lines 102–120).  `storeOk` says whether the durable
write in `add_entry` (lines 52–58) succeeds; when it fails the exception
propagates, so neither the confirmation nor the admin notification is sent. -/
def handle_message (storeOk : Bool) (st : BotState) (uid : Int)
    (firstName rawText : String) : HandleResult :=
  let text := pyStrip rawText
  match dictLookup st.user_state uid with
  | none =>
    { state := st
      userMsgs := ["Please choose a category first using /start."]
      adminMsgs := []
      raised := false }
  | some category =>
    if storeOk then
      { state := { st with entries := st.entries ++ [⟨uid, firstName, category, text⟩] }
        userMsgs := ["✅ Added to *" ++ pyCapitalize category ++ "*!"]
        adminMsgs := ["📬 *New entry in " ++ pyCapitalize category ++ "*\n\n" ++ text
            ++ "\n\nFrom: " ++ firstName]
        raised := false }
    else
      { state := st, userMsgs := [], adminMsgs := [], raised := true }

/-- The `f"{username}: {text}"` rendering of one scanned row (line 137). -/
def fmtEntry (e : Entry) : String := e.username ++ ": " ++ e.text

/-- One step of the grouping loop (lines 136–137): `cats[category].append(...)`.
A category absent from the dict's keys raises `KeyError`, modelled as `none`. -/
def groupStep (cats : List (String × List String)) (e : Entry) :
    Option (List (String × List String)) :=
  if cats.any (fun p => p.1 = e.category) then
    some (cats.map (fun p =>
      if p.1 = e.category then (p.1, p.2 ++ [fmtEntry e]) else p))
  else
    none

/-- The whole grouping loop of `view_entries` starting from the literal dict
`{"fruits": [], "vegetables": [], "drinks": [], "others": []}` (line 135). -/
def groupEntries (entries : List Entry) : Option (List (String × List String)) :=
  entries.foldlM groupStep (registryCategories.map (fun k => (k, [])))

/-- One category section of the report (lines 139–145): header with the total
count, then the last five formatted rows (Python `values[-5:]`) or the
`_No entries yet_` placeholder, each section followed by a blank line. -/
def renderSection (cat : String) (values : List String) : String :=
  "*" ++ pyCapitalize cat ++ "* (" ++ toString values.length ++ " entries):\n"
    ++ (if values.isEmpty then "_No entries yet_\n"
        else String.intercalate "\n" ((values.drop (values.length - 5)).map
              (fun v => "• " ++ v)) ++ "\n")
    ++ "\n"

/-- The `msg` accumulation loop (lines 134, 139–145): start from the
overview header and append each category's section in dict order. -/
def renderReport (cats : List (String × List String)) : String :=
  cats.foldl (fun m p => m ++ renderSection p.1 p.2)
    "📊 *Category Entries Overview:*\n\n"

/-- `view_entries` (lines 123–147): admin check, early return on an empty
store, then group and render.  `none` models the `KeyError` raised when a
stored category is outside the dict's four keys. -/
def view_entries (adminId : Int) (st : BotState) (requesterId : Int) :
    Option (List String) :=
  if requesterId ≠ adminId then
    some ["🚫 You are not authorized to use this command."]
  else if st.entries.isEmpty then
    some ["No entries yet."]
  else
    match groupEntries st.entries with
    | none => none
    | some cats => some [renderReport cats]

/-- Prefix test on character lists (used only to state non-containment of a
pattern in a message). -/
def charsMatchAt : List Char → List Char → Bool
  | _, [] => true
  | [], _ :: _ => false
  | a :: as, b :: bs => a = b && charsMatchAt as bs

/-- Substring test on character lists. -/
def charsContain : List Char → List Char → Bool
  | [], pat => charsMatchAt [] pat
  | a :: as, pat => charsMatchAt (a :: as) pat || charsContain as pat

/-- `pat` occurs as a contiguous substring of `s`. -/
def strContains (s pat : String) : Bool := charsContain s.data pat.data

/-- Concrete fixture: a store holding seven `fruits` entries in insertion
order, used to instantiate the report theorems. -/
def sevenFruitsStore : BotState :=
  ⟨[], [⟨1, "u1", "fruits", "a"⟩, ⟨2, "u2", "fruits", "b"⟩,
    ⟨3, "u3", "fruits", "c"⟩, ⟨4, "u4", "fruits", "d"⟩,
    ⟨5, "u5", "fruits", "e"⟩, ⟨6, "u6", "fruits", "f"⟩,
    ⟨7, "u7", "fruits", "g"⟩]⟩

/-! ## Helper lemmas -/

theorem dictLookup_insert (d : List (Int × String)) (k : Int) (v : String) :
    dictLookup (dictInsert d k v) k = some v := by
  induction d with
  | nil => simp [dictInsert, dictLookup]
  | cons p rest ih =>
    obtain ⟨a, b⟩ := p
    by_cases h : a = k
    · simp [dictInsert, dictLookup, h]
    · simp [dictInsert, dictLookup, h, ih]

theorem groupEntries_aux (entries : List Entry) (f : String → List String)
    (hall : ∀ e ∈ entries, e.category ∈ registryCategories) :
    entries.foldlM groupStep (registryCategories.map (fun k => (k, f k))) =
      some (registryCategories.map (fun k =>
        (k, f k ++ (entries.filter (fun e => e.category = k)).map fmtEntry))) := by
  induction entries generalizing f with
  | nil => simp
  | cons e rest ih =>
    have hcat : e.category ∈ registryCategories := hall e (by simp)
    have hrest : ∀ x ∈ rest, x.category ∈ registryCategories :=
      fun x hx => hall x (by simp [hx])
    have hstep : groupStep (registryCategories.map (fun k => (k, f k))) e =
        some (registryCategories.map (fun k =>
          (k, f k ++ if k = e.category then [fmtEntry e] else []))) := by
      unfold groupStep
      rw [if_pos]
      · rw [List.map_map]
        have hfun : ((fun p : String × List String =>
              if p.1 = e.category then (p.1, p.2 ++ [fmtEntry e]) else p)
                ∘ fun k => (k, f k))
            = fun k => (k, f k ++ if k = e.category then [fmtEntry e] else []) := by
          funext k
          by_cases hk : k = e.category <;> simp [Function.comp, hk]
        rw [hfun]
      · simp only [List.any_eq_true]
        exact ⟨(e.category, f e.category),
          List.mem_map.mpr ⟨e.category, hcat, rfl⟩, by simp⟩
    rw [List.foldlM_cons, hstep]
    have hbind : ∀ (a : List (String × List String))
        (g : List (String × List String) → Option (List (String × List String))),
        (do { let init ← some a; g init }) = g a := fun a g => rfl
    rw [hbind]
    rw [ih (fun k => f k ++ if k = e.category then [fmtEntry e] else []) hrest]
    have hfun2 : (fun k => (k, (f k ++ if k = e.category then [fmtEntry e] else [])
          ++ (rest.filter (fun x => x.category = k)).map fmtEntry))
        = fun k => (k, f k ++ ((e :: rest).filter (fun x => x.category = k)).map fmtEntry) := by
      funext k
      by_cases hk : e.category = k
      · subst hk
        simp [List.filter_cons]
      · have hk' : ¬(k = e.category) := fun h => hk h.symm
        simp [List.filter_cons, hk, hk']
    rw [hfun2]

theorem groupEntries_valid (entries : List Entry)
    (hall : ∀ e ∈ entries, e.category ∈ registryCategories) :
    groupEntries entries = some (registryCategories.map (fun k =>
      (k, (entries.filter (fun e => e.category = k)).map fmtEntry))) := by
  unfold groupEntries
  have h := groupEntries_aux entries (fun _ => []) hall
  simpa only [List.nil_append] using h

theorem foldl_render_shift (cats : List (String × List String)) (x y : String) :
    cats.foldl (fun m p => m ++ renderSection p.1 p.2) (x ++ y)
      = x ++ cats.foldl (fun m p => m ++ renderSection p.1 p.2) y := by
  induction cats generalizing y with
  | nil => simp
  | cons q rest ih =>
    simp only [List.foldl_cons]
    rw [String.append_assoc, ih]

theorem foldl_render_mem (cats : List (String × List String))
    (p : String × List String) (hp : p ∈ cats) (x : String) :
    ∃ pre post, cats.foldl (fun m q => m ++ renderSection q.1 q.2) x
      = pre ++ renderSection p.1 p.2 ++ post := by
  induction cats generalizing x with
  | nil => cases hp
  | cons q rest ih =>
    rw [List.foldl_cons]
    rcases List.mem_cons.mp hp with h | h
    · subst h
      refine ⟨x, rest.foldl (fun m q => m ++ renderSection q.1 q.2) "", ?_⟩
      have h1 := foldl_render_shift rest (x ++ renderSection p.1 p.2) ""
      rw [String.append_empty] at h1
      exact h1
    · exact ih h _

theorem renderSection_seven (c : String) (values : List String)
    (h7 : values.length = 7) :
    renderSection c values
      = "*" ++ pyCapitalize c ++ "* (" ++ "7" ++ " entries):\n"
        ++ String.intercalate "\n" ((values.drop 2).map (fun v => "• " ++ v))
        ++ "\n" ++ "\n" := by
  have hne : values.isEmpty = false := by
    cases values with
    | nil => simp at h7
    | cons a as => rfl
  have h75 : values.length - 5 = 2 := by rw [h7]
  have ht : toString values.length = "7" := by rw [h7]; rfl
  simp [renderSection, hne, h75, ht, String.append_assoc]

/-! ## Claims -/

/-- C1: for every user `u`, valid category `c` and name, running
`choose_category` and then `handle_message` with text `"hello"` appends
exactly one entry `(u, name, c, "hello")` to the store, sends exactly one
admin notification that spells out the text, the (capitalized) category and
the submitter's display name, and one confirmation to the submitter. -/
theorem C1_select_then_submit (st : BotState) (uid : Int) (c : String)
    (hc : c ∈ registryCategories) (name : String) :
    (handle_message true (choose_category st uid c).1 uid name "hello").state.entries
        = st.entries ++ [⟨uid, name, c, "hello"⟩] ∧
    (handle_message true (choose_category st uid c).1 uid name "hello").adminMsgs
        = ["📬 *New entry in " ++ pyCapitalize c ++ "*\n\n" ++ "hello"
            ++ "\n\nFrom: " ++ name] ∧
    (handle_message true (choose_category st uid c).1 uid name "hello").userMsgs
        = ["✅ Added to *" ++ pyCapitalize c ++ "*!"] := by
  have hs : pyStrip "hello" = "hello" := rfl
  simp [choose_category, handle_message, dictLookup_insert, hs]

/-- C1 witness: instantiated at the empty state, user 1, category
`"fruits"`, name `"Bob"`. -/
theorem C1_select_then_submit_witness :
    ("fruits" ∈ registryCategories) ∧
    (handle_message true (choose_category ⟨[], []⟩ 1 "fruits").1 1 "Bob" "hello").state.entries
        = [⟨1, "Bob", "fruits", "hello"⟩] := by
  refine ⟨by decide, ?_⟩
  have h := C1_select_then_submit ⟨[], []⟩ 1 "fruits" (by decide) "Bob"
  simpa using h.1

/-- C2 counterexample: the token `"pizza"` is not in the registry, yet
`choose_category` records it as user 7's selection (no `InvalidCategory`
failure, state changed) — the handler performs no validation at all. -/
theorem C2_counterexample :
    "pizza" ∉ registryCategories ∧
    (choose_category ⟨[], []⟩ 7 "pizza").1.user_state = [(7, "pizza")] ∧
    (choose_category ⟨[], []⟩ 7 "pizza").2
        = ["You chose *Pizza*.\nNow send me your entry."] := by
  decide

/-- C2 amended: `choose_category` performs no validation against the
registry: every token `t`, registered or not, transitions user `u` to
selection `t` (and never fails); the entry store is untouched. -/
theorem C2_no_validation (st : BotState) (uid : Int) (t : String) :
    (choose_category st uid t).1.user_state = dictInsert st.user_state uid t ∧
    dictLookup (choose_category st uid t).1.user_state uid = some t ∧
    (choose_category st uid t).1.entries = st.entries :=
  ⟨rfl, dictLookup_insert _ _ _, rfl⟩

/-- C3: a text message from a user with no recorded selection changes
nothing: no insert, no admin notification, only the "choose a category
first" instruction, and the state is returned unchanged (for either value
of the storage flag). -/
theorem C3_no_selection (ok : Bool) (st : BotState) (uid : Int)
    (name text : String) (h : dictLookup st.user_state uid = none) :
    handle_message ok st uid name text =
      { state := st
        userMsgs := ["Please choose a category first using /start."]
        adminMsgs := []
        raised := false } := by
  simp [handle_message, h]

/-- C3 witness: user 5 with an empty selection map. -/
theorem C3_no_selection_witness :
    dictLookup ([] : List (Int × String)) 5 = none ∧
    handle_message true ⟨[], []⟩ 5 "Ann" "txt" =
      { state := ⟨[], []⟩
        userMsgs := ["Please choose a category first using /start."]
        adminMsgs := []
        raised := false } :=
  ⟨rfl, C3_no_selection true ⟨[], []⟩ 5 "Ann" "txt" rfl⟩

/-- C4 counterexample: with category `"fruits"` selected and a failing
store, `handle_message` sends the user **no** message at all (in
particular no failure message) and the exception propagates out of the
handler (`raised = true`), contradicting the claim's "user-facing failure
message" and "does not propagate" conjuncts. -/
theorem C4_counterexample :
    (handle_message false ⟨[(1, "fruits")], []⟩ 1 "Bob" "hi").userMsgs = [] ∧
    (handle_message false ⟨[(1, "fruits")], []⟩ 1 "Bob" "hi").raised = true := by
  decide

/-- C4 amended: when the durable write fails during `handle_message` for a
user with a selected category, zero admin notifications are sent, zero new
entries are stored and the state is unchanged — but no user-facing failure
message is sent either, and the storage exception propagates out of the
handler uncaught (the surrounding framework, not this code, must contain
it). -/
theorem C4_storage_failure (st : BotState) (uid : Int) (c name text : String)
    (h : dictLookup st.user_state uid = some c) :
    (handle_message false st uid name text).userMsgs = [] ∧
    (handle_message false st uid name text).adminMsgs = [] ∧
    (handle_message false st uid name text).state = st ∧
    (handle_message false st uid name text).raised = true := by
  simp [handle_message, h]

/-- C4 witness: user 1 with `"fruits"` selected and a failing store. -/
theorem C4_storage_failure_witness :
    dictLookup [(1, "fruits")] 1 = some "fruits" ∧
    (handle_message false ⟨[(1, "fruits")], []⟩ 1 "Bob" "hi").adminMsgs = [] ∧
    (handle_message false ⟨[(1, "fruits")], []⟩ 1 "Bob" "hi").state
        = ⟨[(1, "fruits")], []⟩ := by
  have h := C4_storage_failure ⟨[(1, "fruits")], []⟩ 1 "fruits" "Bob" "hi" rfl
  exact ⟨rfl, h.2.1, h.2.2.1⟩

/-- C5: the selection is sticky: after one `choose_category` for `c`, two
successive successful submissions store two entries, both under `c`, and
the user's selection afterwards is still `c` (no reselection needed). -/
theorem C5_sticky_selection (st : BotState) (uid : Int) (c : String)
    (name1 t1 name2 t2 : String) :
    (handle_message true
        (handle_message true (choose_category st uid c).1 uid name1 t1).state
        uid name2 t2).state.entries
      = st.entries ++ [⟨uid, name1, c, pyStrip t1⟩, ⟨uid, name2, c, pyStrip t2⟩] ∧
    dictLookup (handle_message true
        (handle_message true (choose_category st uid c).1 uid name1 t1).state
        uid name2 t2).state.user_state uid = some c := by
  simp [choose_category, handle_message, dictLookup_insert]

/-- C7 counterexample: over an empty store the admin's `/view` yields the
single message `"No entries yet."`, which names none of the registry's
categories — the per-category listing of the claim does not happen. -/
theorem C7_counterexample :
    view_entries 1 ⟨[], []⟩ 1 = some ["No entries yet."] ∧
    strContains "No entries yet." "fruits" = false ∧
    strContains "No entries yet." "Fruits" = false ∧
    strContains "No entries yet." "vegetables" = false ∧
    strContains "No entries yet." "Vegetables" = false ∧
    strContains "No entries yet." "drinks" = false ∧
    strContains "No entries yet." "Drinks" = false ∧
    strContains "No entries yet." "others" = false ∧
    strContains "No entries yet." "Others" = false ∧
    strContains "No entries yet." "_No entries yet_" = false := by
  decide

/-- C7 amended: over an empty store (any selection map, admin requester)
the response is exactly the single generic message `"No entries yet."`;
the early return at line 131 skips the per-category report entirely, so no
category is listed. -/
theorem C7_empty_store_generic (aid : Int) (us : List (Int × String)) :
    view_entries aid ⟨us, []⟩ aid = some ["No entries yet."] := by
  simp [view_entries]

/-- C8: any requester other than the configured admin gets exactly the
fixed denial message, whatever the store holds — no report content is in
the response. -/
theorem C8_unauthorized (adminId : Int) (st : BotState) (rid : Int)
    (h : rid ≠ adminId) :
    view_entries adminId st rid
      = some ["🚫 You are not authorized to use this command."] := by
  simp [view_entries, h]

/-- C8 witness: requester 2 against admin 1, over a non-empty store. -/
theorem C8_unauthorized_witness :
    (2 : Int) ≠ 1 ∧
    view_entries 1 ⟨[], [⟨3, "Bob", "fruits", "secret"⟩]⟩ 2
      = some ["🚫 You are not authorized to use this command."] :=
  ⟨by decide, C8_unauthorized 1 ⟨[], [⟨3, "Bob", "fruits", "secret"⟩]⟩ 2 (by decide)⟩

/-- C9: with a selected category, `handle_message` stores the text with
leading/trailing whitespace stripped, sends the usual confirmation, and
does not raise — for **every** text, including texts that strip to the
empty string (accepted, not rejected). -/
theorem C9_trim_and_accept (st : BotState) (uid : Int) (c name text : String)
    (h : dictLookup st.user_state uid = some c) :
    (handle_message true st uid name text).state.entries
        = st.entries ++ [⟨uid, name, c, pyStrip text⟩] ∧
    (handle_message true st uid name text).userMsgs
        = ["✅ Added to *" ++ pyCapitalize c ++ "*!"] ∧
    (handle_message true st uid name text).raised = false := by
  simp [handle_message, h]

/-- C6: over any store whose entries all carry registered categories and
whose category `c` holds exactly 7 entries, the admin report contains a
section for `c` whose header states the total count 7 (not 5) and whose
body lists exactly the last five formatted entries (`drop 2` of the
7-element chronological list), each line being `"• " ++ name ++ ": " ++ text`. -/
theorem C6_report_last_five (st : BotState) (aid : Int) (c : String)
    (hc : c ∈ registryCategories)
    (hall : ∀ e ∈ st.entries, e.category ∈ registryCategories)
    (h7 : ((st.entries.filter (fun e => e.category = c)).map fmtEntry).length = 7) :
    ∃ msg pre post,
      view_entries aid st aid = some [msg] ∧
      msg = pre ++ renderSection c
          ((st.entries.filter (fun e => e.category = c)).map fmtEntry) ++ post ∧
      renderSection c ((st.entries.filter (fun e => e.category = c)).map fmtEntry)
        = "*" ++ pyCapitalize c ++ "* (" ++ "7" ++ " entries):\n"
          ++ String.intercalate "\n"
              ((((st.entries.filter (fun e => e.category = c)).map fmtEntry).drop 2).map
                (fun v => "• " ++ v)) ++ "\n" ++ "\n" ∧
      (((st.entries.filter (fun e => e.category = c)).map fmtEntry).drop 2).length = 5 := by
  have hgroup := groupEntries_valid st.entries hall
  have hne : st.entries.isEmpty = false := by
    cases hsE : st.entries with
    | nil => rw [hsE] at h7; simp at h7
    | cons a as => rfl
  have hmem : (c, (st.entries.filter (fun e => e.category = c)).map fmtEntry)
      ∈ registryCategories.map (fun k =>
          (k, (st.entries.filter (fun e => e.category = k)).map fmtEntry)) :=
    List.mem_map.mpr ⟨c, hc, rfl⟩
  obtain ⟨pre, post, hsplit⟩ :=
    foldl_render_mem _ _ hmem "📊 *Category Entries Overview:*\n\n"
  refine ⟨renderReport (registryCategories.map (fun k =>
      (k, (st.entries.filter (fun e => e.category = k)).map fmtEntry))),
    pre, post, ?_, ?_, ?_, ?_⟩
  · simp [view_entries, hne, hgroup]
  · simpa [renderReport] using hsplit
  · exact renderSection_seven c _ h7
  · simp [List.length_drop, h7]

/-- C6 witness: the seven-fruits fixture store, admin identity 9. -/
theorem C6_report_last_five_witness :
    ("fruits" ∈ registryCategories) ∧
    (∀ e ∈ sevenFruitsStore.entries, e.category ∈ registryCategories) ∧
    ((sevenFruitsStore.entries.filter
        (fun e => e.category = "fruits")).map fmtEntry).length = 7 ∧
    ∃ msg pre post,
      view_entries 9 sevenFruitsStore 9 = some [msg] ∧
      msg = pre ++ renderSection "fruits"
          ((sevenFruitsStore.entries.filter
            (fun e => e.category = "fruits")).map fmtEntry) ++ post := by
  refine ⟨by decide, by decide, by decide, ?_⟩
  obtain ⟨msg, pre, post, h1, h2, _, _⟩ :=
    C6_report_last_five sevenFruitsStore 9 "fruits" (by decide) (by decide) (by decide)
  exact ⟨msg, pre, post, h1, h2⟩

/-- C10: the report's grouping loop is total on stores whose entries all
carry registered categories; it fails (raising `KeyError`, modelled as
`none`) only when some stored category is outside the registry — and such
entries are reachable because `choose_category` records any token
unvalidated. -/
theorem C10_grouping_totality (entries : List Entry) :
    ((∀ e ∈ entries, e.category ∈ registryCategories) →
        (groupEntries entries).isSome = true) ∧
    (groupEntries entries = none →
        ∃ e ∈ entries, e.category ∉ registryCategories) ∧
    groupEntries [⟨1, "u", "pizza", "t"⟩] = none ∧
    (∀ st uid t, dictLookup (choose_category st uid t).1.user_state uid = some t) := by
  refine ⟨fun hall => ?_, fun hnone => ?_, by decide,
    fun st uid t => dictLookup_insert _ _ _⟩
  · rw [groupEntries_valid entries hall]; rfl
  · by_contra hcon
    push_neg at hcon
    rw [groupEntries_valid entries hcon] at hnone
    exact Option.noConfusion hnone

/-- C10 witness: grouping succeeds on the seven-fruits fixture, and the
selection path stores the unregistered token `"pizza"`. -/
theorem C10_grouping_totality_witness :
    (groupEntries sevenFruitsStore.entries).isSome = true ∧
    dictLookup (choose_category ⟨[], []⟩ 3 "pizza").1.user_state 3 = some "pizza" :=
  ⟨(C10_grouping_totality sevenFruitsStore.entries).1 (by decide),
    (C10_grouping_totality []).2.2.2 ⟨[], []⟩ 3 "pizza"⟩

/-- C9 witness: the whitespace-only text `"   "` is stored as the empty
string under the selected category `"drinks"`. -/
theorem C9_trim_and_accept_witness :
    dictLookup [(1, "drinks")] 1 = some "drinks" ∧
    (handle_message true ⟨[(1, "drinks")], []⟩ 1 "Bob" "   ").state.entries
      = [⟨1, "Bob", "drinks", ""⟩] := by
  have h := C9_trim_and_accept ⟨[(1, "drinks")], []⟩ 1 "drinks" "Bob" "   " rfl
  refine ⟨rfl, ?_⟩
  have hs : pyStrip "   " = "" := rfl
  simpa [hs] using h.1

end Bot
